import Mathlib

/-!
Verification development for the `shatkon` project scaffolding tool
(`src/main.go`).  The Go program is shallowly embedded: external effects
(`mkdir`, `mkdir -p`, `go mod init`, `git init`, `go mod tidy`, and the file
operations performed by `CreateFile`) are modelled as events recorded in a
trace, together with an explicit filesystem state.  An environment oracle
decides whether each external operation succeeds; operations whose outcome is
determined by the modelled filesystem (creating an already-existing directory
with plain `mkdir`) additionally consult the filesystem state.  Template
contents are opaque static text in the source (`const` strings that the
program never inspects), so they are embedded as an enumeration of distinct
tokens; the `statusColor` function contained in the logger template is
embedded separately as a function.
-/

namespace Shatkon

/-- The `ProjectConfig` struct of `src/main.go` (lines 15-21). -/
structure ProjectConfig where
  githubUserID : String
  projectName  : String
  framework    : String
  database     : String
  logging      : Bool
  deriving DecidableEq

/-! ## The Configuration Collector (the `huh` form in `main`, lines 26-99) -/

/-- Framework select options of the form (labels paired with values),
`src/main.go` lines 58-64. -/
def frameworkOptions : List (String × String) :=
  [("StdLib", "stdlib"), ("Gin", "gin"), ("Echo", "echo"),
   ("Fiber", "fiber"), ("Chi", "chi")]

/-- Database select options of the form, `src/main.go` lines 72-76. -/
def databaseOptions : List (String × String) :=
  [("PostgreSQL", "postgresql"), ("MongoDB", "mongodb"), ("SQLite", "sqlite")]

/-- Validator of the GitHub UserID input (`src/main.go` lines 35-40). -/
def validateGithubUserID (s : String) : Option String :=
  if s = "" then some ("GitHub UserID cannot be empty") else none

/-- Validator of the project-name input (`src/main.go` lines 46-51). -/
def validateProjectName (s : String) : Option String :=
  if s = "" then some ("project name cannot be empty") else none

/-- Validator of the logging confirm (`src/main.go` lines 85-90); at the time
it runs, the framework group has already stored its value in the config. -/
def validateLogging (framework : String) (b : Bool) : Option String :=
  if b = true ∧ framework ≠ "echo" then
    some ("logging middleware is only available for Echo framework")
  else none

/-- The form yields a config exactly when every validator accepts it and the
two selects produced one of their option values. -/
def formAccepts (cfg : ProjectConfig) : Bool :=
  (validateGithubUserID cfg.githubUserID).isNone &&
  (validateProjectName cfg.projectName).isNone &&
  (frameworkOptions.map Prod.snd).contains cfg.framework &&
  (databaseOptions.map Prod.snd).contains cfg.database &&
  (validateLogging cfg.framework cfg.logging).isNone

/-! ## Templates, events, errors, filesystem -/

/-- The static template constants of `src/main.go`; the program treats their
text as opaque, so they are embedded as distinct tokens (the misspelling
`fiberTempalte` is the source's). -/
inductive Template where
  | loggerTemplate | cfgTemplate | echoTemplate | echoTemplateWithLogger
  | chiTemplate | fiberTempalte | ginTemplate | stdLibTemplate
  | sqliteTemplate | pgSqlTemplate | mongoDBTemplate
  deriving DecidableEq

/-- One external effect attempted by the program. -/
inductive Event where
  | mkdirCmd (path : String)
  | mkdirPCmd (path : String)
  | goModInit (modulePath : String) (dir : String)
  | gitInit (dir : String)
  | mkdirAllE (dir : String)
  | createE (path : String)
  | writeE (path : String) (content : Template)
  | goModTidy (dir : String)
  deriving DecidableEq

/-- Content of a file in the modelled filesystem: `os.Create` truncates the
file to empty, a successful `WriteString` fills in template text. -/
inductive FileContent where
  | empty
  | text (t : Template)
  deriving DecidableEq

/-- The error values produced inside `InitProject` and `CreateFile`; the
constructors carry exactly the data interpolated into the Go error messages
(`failed to create directory %s` names the directory). -/
inductive Err where
  | mkdirRootFailed (name : String)
  | mkdirDirFailed (dir : String)
  | goModInitFailed
  | gitInitFailed
  | fsError (e : Event)
  deriving DecidableEq

/-- Modelled filesystem: which directories exist, and the content of files. -/
structure FS where
  dirs  : String → Bool
  files : String → Option FileContent

def fsEmpty : FS := ⟨fun _ => false, fun _ => none⟩

/-- Environment oracle: decides whether an attempted external operation
succeeds (permissions, tool availability, disk, ...). -/
abbrev Env := Event → Bool

def envTrue : Env := fun _ => true

/-- Result of a program fragment: the events it attempted, the filesystem it
left behind, and the error value it returned (Go `error`, `nil` = `none`). -/
structure StepResult where
  trace : List Event
  fs    : FS
  err   : Option Err

/-! ## CreateFile (`src/main.go` lines 221-242) -/

/-- `filepath.Dir` on the clean relative slash-separated paths the program
builds: everything before the last `/`, or `.` when there is no slash. -/
def takeBeforeLastSlash : List Char → Option (List Char)
  | [] => none
  | c :: rest =>
    match takeBeforeLastSlash rest with
    | some r => some (c :: r)
    | none => if c = '/' then some [] else none

def dirOf (p : String) : String :=
  match takeBeforeLastSlash p.data with
  | some l => ⟨l⟩
  | none => "."

/-- `CreateFile` (`src/main.go` lines 221-242): `os.MkdirAll` on the parent
directory, then `os.Create` (which truncates an existing file), then
`WriteString`; the first failing operation's error is returned. -/
def CreateFile (env : Env) (content : Template) (filePath : String) (fs : FS) :
    StepResult :=
  if env (.mkdirAllE (dirOf filePath)) = true then
    if env (.createE filePath) = true then
      if env (.writeE filePath content) = true then
        ⟨[.mkdirAllE (dirOf filePath), .createE filePath, .writeE filePath content],
         ⟨fun q => if q = dirOf filePath then true else fs.dirs q,
          fun q => if q = filePath then some (.text content) else fs.files q⟩,
         none⟩
      else
        ⟨[.mkdirAllE (dirOf filePath), .createE filePath, .writeE filePath content],
         ⟨fun q => if q = dirOf filePath then true else fs.dirs q,
          fun q => if q = filePath then some .empty else fs.files q⟩,
         some (.fsError (.writeE filePath content))⟩
    else
      ⟨[.mkdirAllE (dirOf filePath), .createE filePath],
       ⟨fun q => if q = dirOf filePath then true else fs.dirs q, fs.files⟩,
       some (.fsError (.createE filePath))⟩
  else
    ⟨[.mkdirAllE (dirOf filePath)], fs, some (.fsError (.mkdirAllE (dirOf filePath)))⟩

/-- `addEchoLogger` (`src/main.go` lines 244-248). -/
def addEchoLogger (env : Env) (cfg : ProjectConfig) (fs : FS) : StepResult :=
  CreateFile env .loggerTemplate (cfg.projectName ++ "/pkg/utils/logger.go") fs

/-! ## InitProject (`src/main.go` lines 176-219) -/

/-- The fixed subdirectory list of `InitProject` (`src/main.go` lines
181-190), in source order. -/
def initDirs (name : String) : List String :=
  [name ++ "/internal/adapters",
   name ++ "/internal/config",
   name ++ "/internal/core",
   name ++ "/internal/adapters/handlers",
   name ++ "/internal/adapters/repository",
   name ++ "/internal/core/domain",
   name ++ "/internal/core/ports",
   name ++ "/internal/core/services"]

/-- The `for _, dir := range dirs` loop of `InitProject` (lines 192-196):
`mkdir -p` each directory, returning on the first failure with an error that
names the failing directory. -/
def mkDirsLoop (env : Env) : FS → List String → StepResult
  | fs, [] => ⟨[], fs, none⟩
  | fs, d :: rest =>
    if env (.mkdirPCmd d) = true then
      let r := mkDirsLoop env ⟨fun q => if q = d then true else fs.dirs q, fs.files⟩ rest
      ⟨.mkdirPCmd d :: r.trace, r.fs, r.err⟩
    else ⟨[.mkdirPCmd d], fs, some (.mkdirDirFailed d)⟩

/-- `InitProject` (`src/main.go` lines 176-219): plain `mkdir` of the project
root (which fails when the directory already exists, or when the oracle says
the creation fails), the eight `mkdir -p` calls, `go mod init` with the
computed module path, `git init`, then `CreateFile` of the config template.
Each failure returns immediately with the corresponding wrapped error. -/
def InitProject (env : Env) (cfg : ProjectConfig) (fs : FS) : StepResult :=
  if env (.mkdirCmd cfg.projectName) = true ∧ fs.dirs cfg.projectName = false then
    let rd := mkDirsLoop env
      ⟨fun q => if q = cfg.projectName then true else fs.dirs q, fs.files⟩
      (initDirs cfg.projectName)
    match rd.err with
    | some e => ⟨.mkdirCmd cfg.projectName :: rd.trace, rd.fs, some e⟩
    | none =>
      let modulePath := "github.com/" ++ cfg.githubUserID ++ "/" ++ cfg.projectName
      if env (.goModInit modulePath ("./" ++ cfg.projectName)) = true then
        if env (.gitInit ("./" ++ cfg.projectName)) = true then
          let rc := CreateFile env .cfgTemplate
            (cfg.projectName ++ "/internal/config/config.go") rd.fs
          ⟨.mkdirCmd cfg.projectName :: rd.trace ++
             [.goModInit modulePath ("./" ++ cfg.projectName),
              .gitInit ("./" ++ cfg.projectName)] ++ rc.trace,
           rc.fs, rc.err⟩
        else
          ⟨.mkdirCmd cfg.projectName :: rd.trace ++
             [.goModInit modulePath ("./" ++ cfg.projectName),
              .gitInit ("./" ++ cfg.projectName)],
           rd.fs, some .gitInitFailed⟩
      else
        ⟨.mkdirCmd cfg.projectName :: rd.trace ++
           [.goModInit modulePath ("./" ++ cfg.projectName)],
         rd.fs, some .goModInitFailed⟩
  else
    ⟨[.mkdirCmd cfg.projectName], fs, some (.mkdirRootFailed cfg.projectName)⟩

/-! ## main after the form (`src/main.go` lines 106-145) -/

/-- The framework switch of `main` (lines 107-125): write the entry-point
template selected by `config.Framework` to `<project>/cmd/main.go`; for echo
with logging enabled, `addEchoLogger` runs first and the logger-aware variant
is used.  `main` discards the returned `CreateFile` errors. -/
def frameworkStep (env : Env) (cfg : ProjectConfig) (fs : FS) : StepResult :=
  if cfg.framework = "stdlib" then
    CreateFile env .stdLibTemplate (cfg.projectName ++ "/cmd/main.go") fs
  else if cfg.framework = "echo" then
    if cfg.logging = true then
      let ra := addEchoLogger env cfg fs
      let rb := CreateFile env .echoTemplateWithLogger (cfg.projectName ++ "/cmd/main.go") ra.fs
      ⟨ra.trace ++ rb.trace, rb.fs, rb.err⟩
    else CreateFile env .echoTemplate (cfg.projectName ++ "/cmd/main.go") fs
  else if cfg.framework = "gin" then
    CreateFile env .ginTemplate (cfg.projectName ++ "/cmd/main.go") fs
  else if cfg.framework = "chi" then
    CreateFile env .chiTemplate (cfg.projectName ++ "/cmd/main.go") fs
  else if cfg.framework = "fiber" then
    CreateFile env .fiberTempalte (cfg.projectName ++ "/cmd/main.go") fs
  else ⟨[], fs, none⟩

/-- The database switch of `main` (lines 127-136): write the adapter template
to `<project>/internal/adapters/repository/db.go` for sqlite, postgresql and
mongodb; any other value has no case and nothing is written. -/
def databaseStep (env : Env) (cfg : ProjectConfig) (fs : FS) : StepResult :=
  if cfg.database = "sqlite" then
    CreateFile env .sqliteTemplate (cfg.projectName ++ "/internal/adapters/repository/db.go") fs
  else if cfg.database = "postgresql" then
    CreateFile env .pgSqlTemplate (cfg.projectName ++ "/internal/adapters/repository/db.go") fs
  else if cfg.database = "mongodb" then
    CreateFile env .mongoDBTemplate (cfg.projectName ++ "/internal/adapters/repository/db.go") fs
  else ⟨[], fs, none⟩

/-- `panic(err)` on a failing `go mod tidy` exits the process non-zero;
otherwise `main` prints the summary and exits zero. -/
inductive MainOutcome where
  | ok
  | panicked
  deriving DecidableEq

/-- The run of `main` after `form.Run()` succeeded (`src/main.go` lines
106-145).  `InitProject`'s returned error is *discarded* (line 106 calls it
as a statement); `initErr` records the discarded value.  The framework and
database switches run unconditionally afterwards, then `go mod tidy`, whose
failure is the only one that stops the process (`panic`, line 141). -/
structure RunResult where
  trace   : List Event
  fs      : FS
  initErr : Option Err
  outcome : MainOutcome

def mainRun (env : Env) (cfg : ProjectConfig) (fs : FS) : RunResult :=
  let r0 := InitProject env cfg fs
  let r1 := frameworkStep env cfg r0.fs
  let r2 := databaseStep env cfg r1.fs
  { trace := r0.trace ++ r1.trace ++ r2.trace ++ [.goModTidy ("./" ++ cfg.projectName)],
    fs := r2.fs,
    initErr := r0.err,
    outcome := if env (.goModTidy ("./" ++ cfg.projectName)) = true
               then .ok else .panicked }

/-- The whole program: the materializer runs only when the form produced an
accepted configuration (`form.Run()` re-prompts on validation failure and
`main` exits before `InitProject` when it errors, lines 101-105). -/
inductive ProgramResult where
  | formFailed
  | ran (r : RunResult)

def program (env : Env) (cfg : ProjectConfig) (fs : FS) : ProgramResult :=
  if formAccepts cfg = true then .ran (mainRun env cfg fs) else .formFailed

/-! ## statusColor from the logger template (`src/main.go` lines 260-289)

The logger template is opaque text to the scaffolder, but the claim C9 is
about the Go function `statusColor` contained in that text; it is embedded
here directly from the template source. -/

def colorRed : String := "\x1b[31m"
def colorGreen : String := "\x1b[32m"
def colorYellow : String := "\x1b[33m"
def colorBlue : String := "\x1b[34m"
def colorPurple : String := "\x1b[35m"
def colorReset : String := "\x1b[0m"

/-- The `statusColor` switch of the logger template (lines 274-289): note the
`code >= 500` case has no upper bound. -/
def statusColor (code : Int) : String :=
  if 100 ≤ code ∧ code < 200 then colorYellow
  else if 200 ≤ code ∧ code < 300 then colorGreen
  else if 300 ≤ code ∧ code < 400 then colorBlue
  else if 400 ≤ code ∧ code < 500 then colorRed
  else if 500 ≤ code then colorPurple
  else colorReset

/-! ## Helper lemmas -/

theorem data_append (a b : String) : (a ++ b).data = a.data ++ b.data := by
  rcases a with ⟨la⟩; rcases b with ⟨lb⟩; rfl

/-- All file paths the program builds share the project-name prefix; equality
of such paths reduces to equality of the literal suffixes. -/
@[simp] theorem append_left_iff (s a b : String) : s ++ a = s ++ b ↔ a = b := by
  constructor
  · intro h
    have h2 : s.data ++ a.data = s.data ++ b.data := by
      have h3 := congrArg String.data h
      simpa [data_append] using h3
    rcases a with ⟨la⟩; rcases b with ⟨lb⟩
    exact congrArg String.mk (List.append_cancel_left h2)
  · intro h; rw [h]

theorem CreateFile_files_other (env : Env) (c : Template) (path q : String) (fs : FS)
    (h : q ≠ path) : (CreateFile env c path fs).fs.files q = fs.files q := by
  unfold CreateFile
  split_ifs <;> simp [h]

theorem CreateFile_files_self (c : Template) (path : String) (fs : FS) :
    (CreateFile envTrue c path fs).fs.files path = some (.text c) := by
  simp [CreateFile, envTrue]

theorem CreateFile_trace_envTrue (c : Template) (path : String) (fs : FS) :
    (CreateFile envTrue c path fs).trace =
      [.mkdirAllE (dirOf path), .createE path, .writeE path c] := rfl

theorem CreateFile_err_envTrue (c : Template) (path : String) (fs : FS) :
    (CreateFile envTrue c path fs).err = none := rfl

theorem mkDirsLoop_files (env : Env) (l : List String) (fs : FS) (q : String) :
    (mkDirsLoop env fs l).fs.files q = fs.files q := by
  induction l generalizing fs with
  | nil => rfl
  | cons d rest ih =>
    unfold mkDirsLoop
    split_ifs <;> simp [ih]

theorem InitProject_files_other (env : Env) (cfg : ProjectConfig) (fs : FS) (q : String)
    (h : q ≠ cfg.projectName ++ "/internal/config/config.go") :
    (InitProject env cfg fs).fs.files q = fs.files q := by
  simp only [InitProject]
  split
  · split
    · simp [mkDirsLoop_files]
    · split
      · split
        · simp [CreateFile_files_other _ _ _ _ _ h, mkDirsLoop_files]
        · simp [mkDirsLoop_files]
      · simp [mkDirsLoop_files]
  · rfl

theorem frameworkStep_files_other (env : Env) (cfg : ProjectConfig) (fs : FS) (q : String)
    (h1 : q ≠ cfg.projectName ++ "/cmd/main.go")
    (h2 : q ≠ cfg.projectName ++ "/pkg/utils/logger.go") :
    (frameworkStep env cfg fs).fs.files q = fs.files q := by
  simp only [frameworkStep, addEchoLogger]
  split_ifs <;>
    simp [CreateFile_files_other _ _ _ _ _ h1, CreateFile_files_other _ _ _ _ _ h2]

theorem databaseStep_files_other (env : Env) (cfg : ProjectConfig) (fs : FS) (q : String)
    (h : q ≠ cfg.projectName ++ "/internal/adapters/repository/db.go") :
    (databaseStep env cfg fs).fs.files q = fs.files q := by
  simp only [databaseStep]
  split_ifs <;> simp [CreateFile_files_other _ _ _ _ _ h]

/-! ## Concrete inputs used by the claim theorems and witnesses -/

/-- Scenario A of the spec: alice / demo1 / gin / sqlite / no logging. -/
def cfgA : ProjectConfig := ⟨"alice", "demo1", "gin", "sqlite", false⟩

/-- Scenario B of the spec: bob / demo2 / echo / mongodb / logging. -/
def cfgB : ProjectConfig := ⟨"bob", "demo2", "echo", "mongodb", true⟩

/-- A filesystem in which the directory `demo1` already exists. -/
def fsDemo1 : FS := ⟨fun q => if q = "demo1" then true else false, fun _ => none⟩

/-- An environment in which the module initializer (`go mod init`) exits
non-zero and every other external operation succeeds. -/
def envNoModInit : Env := fun e =>
  match e with
  | .goModInit _ _ => false
  | _ => true

/-! ## Claims -/

/-- Claim C1 (code_bug evidence).  With `ProjectName = demo1` already existing
as a directory, `InitProject` does return the step-1 directory error — but
`main` (line 106) discards that error and keeps going: the gin entry-point
template is still written to `demo1/cmd/main.go`, the sqlite adapter to
`demo1/internal/adapters/repository/db.go`, `go mod tidy` still runs, and the
process exits zero.  The claim's "performs no further writes: no template
files are written, and no external commands are run" is false on the code. -/
theorem c1_existing_dir_still_writes :
    (mainRun envTrue cfgA fsDemo1).initErr = some (.mkdirRootFailed ("demo1")) ∧
    Event.writeE ("demo1/cmd/main.go") .ginTemplate ∈ (mainRun envTrue cfgA fsDemo1).trace ∧
    Event.writeE ("demo1/internal/adapters/repository/db.go") .sqliteTemplate ∈
      (mainRun envTrue cfgA fsDemo1).trace ∧
    Event.goModTidy ("./demo1") ∈ (mainRun envTrue cfgA fsDemo1).trace ∧
    (mainRun envTrue cfgA fsDemo1).fs.files ("demo1/cmd/main.go") =
      some (.text .ginTemplate) ∧
    (mainRun envTrue cfgA fsDemo1).outcome = .ok := by
  decide

/-- Claim C2 (code_bug evidence).  When `go mod init` exits non-zero,
`InitProject` stops (no `git init` is attempted) and returns the module-init
error — but `main` (line 106) discards it: the entry-point template is still
written, `go mod tidy` still runs, and the process exits zero instead of
non-zero.  Only a failing `go mod tidy` is actually fatal (`panic`, line
141).  The claim's "a non-zero exit from any of the three external tool
invocations is fatal" is false on the code for module init and VCS init. -/
theorem c2_module_init_failure_not_fatal :
    (mainRun envNoModInit cfgA fsEmpty).initErr = some .goModInitFailed ∧
    Event.gitInit ("./demo1") ∉ (mainRun envNoModInit cfgA fsEmpty).trace ∧
    Event.writeE ("demo1/cmd/main.go") .ginTemplate ∈
      (mainRun envNoModInit cfgA fsEmpty).trace ∧
    Event.goModTidy ("./demo1") ∈ (mainRun envNoModInit cfgA fsEmpty).trace ∧
    (mainRun envNoModInit cfgA fsEmpty).outcome = .ok := by
  decide

/-- Claim C3 counterexample.  The database select of the Configuration
Collector (`src/main.go` lines 72-76) offers three choices, not five:
`mysql` and `none` are not selectable. -/
theorem c3_counterexample :
    ("mysql") ∉ databaseOptions.map Prod.snd ∧
    ("none") ∉ databaseOptions.map Prod.snd ∧
    (databaseOptions.map Prod.snd).length ≠ 5 := by
  decide

/-- Claim C3, amended: the Database field is collected from a three-option
select whose values are exactly postgresql, mongodb, sqlite; mysql and none
are not offered as selectable choices. -/
theorem c3_amended_options :
    databaseOptions.map Prod.snd = [("postgresql"), ("mongodb"), ("sqlite")] ∧
    ("mysql") ∉ databaseOptions.map Prod.snd ∧
    ("none") ∉ databaseOptions.map Prod.snd := by
  decide

/-- Claim C9 counterexample.  The `code >= 500` case of `statusColor` has no
upper bound: 600 is not a 5xx status code, yet the function returns purple
for it rather than the reset color the claim assigns to "every other code". -/
theorem c9_counterexample :
    statusColor 600 = colorPurple ∧
    ¬ (500 ≤ (600 : Int) ∧ (600 : Int) < 600) ∧
    colorPurple ≠ colorReset := by
  refine ⟨rfl, by decide, by decide⟩

/-- Claim C9, amended: `statusColor` maps 100-199 to yellow, 200-299 to
green, 300-399 to blue, 400-499 to red, every code ≥ 500 (not only 5xx) to
purple, and every code below 100 to the reset color. -/
theorem c9_amended_status_color (code : Int) :
    (100 ≤ code → code < 200 → statusColor code = colorYellow) ∧
    (200 ≤ code → code < 300 → statusColor code = colorGreen) ∧
    (300 ≤ code → code < 400 → statusColor code = colorBlue) ∧
    (400 ≤ code → code < 500 → statusColor code = colorRed) ∧
    (500 ≤ code → statusColor code = colorPurple) ∧
    (code < 100 → statusColor code = colorReset) := by
  refine ⟨?_, ?_, ?_, ?_, ?_, ?_⟩ <;> intro h <;>
    first
    | (intro h2; simp only [statusColor]; split_ifs <;> first | rfl | omega)
    | (simp only [statusColor]; split_ifs <;> first | rfl | omega)

/-- Witness for C9's amended theorem at concrete status codes. -/
theorem c9_witness :
    (100 ≤ (150 : Int) ∧ (150 : Int) < 200 ∧ statusColor 150 = colorYellow) ∧
    (500 ≤ (503 : Int) ∧ statusColor 503 = colorPurple) :=
  ⟨⟨by decide, by decide, (c9_amended_status_color 150).1 (by decide) (by decide)⟩,
   ⟨by decide, (c9_amended_status_color 503).2.2.2.2.1 (by decide)⟩⟩

/-- Claim C10.  `CreateFile` first runs `MkdirAll` on the parent directory;
when all three operations succeed it returns no error and the target file
holds exactly the new content — with no assumption on `fs.files filePath`,
so a pre-existing file at the target path is silently replaced — and it
returns an error exactly when directory creation, file creation, or the
write fails. -/
theorem c10_createfile (env : Env) (content : Template) (filePath : String) (fs : FS) :
    ((CreateFile env content filePath fs).err = none →
      (CreateFile env content filePath fs).fs.files filePath = some (.text content) ∧
      (CreateFile env content filePath fs).fs.dirs (dirOf filePath) = true) ∧
    ((CreateFile env content filePath fs).err = none ↔
      env (.mkdirAllE (dirOf filePath)) = true ∧ env (.createE filePath) = true ∧
      env (.writeE filePath content) = true) := by
  simp only [CreateFile]
  split_ifs with h1 h2 h3 <;> simp_all

/-- A filesystem that already holds a file at `demo1/cmd/main.go`. -/
def fsPre : FS :=
  ⟨fun _ => false,
   fun q => if q = "demo1/cmd/main.go" then some (.text .echoTemplate) else none⟩

/-- Witness for C10: overwriting an existing `demo1/cmd/main.go` succeeds and
replaces the old content. -/
theorem c10_witness :
    fsPre.files ("demo1/cmd/main.go") = some (.text .echoTemplate) ∧
    (CreateFile envTrue .ginTemplate ("demo1/cmd/main.go") fsPre).err = none ∧
    (CreateFile envTrue .ginTemplate ("demo1/cmd/main.go") fsPre).fs.files
      ("demo1/cmd/main.go") = some (.text .ginTemplate) :=
  ⟨by decide, by decide,
   ((c10_createfile envTrue .ginTemplate ("demo1/cmd/main.go") fsPre).1 (by decide)).1⟩

/-- Claim C6.  The materializer part of the program runs only when the form
accepted the configuration, and the logging validator rejects `Logging ==
true` with any framework other than echo; hence whenever the materializer is
invoked with logging enabled, the framework is echo. -/
theorem c6_logging_requires_echo (env : Env) (cfg : ProjectConfig) (fs : FS)
    (h : program env cfg fs ≠ ProgramResult.formFailed) (hl : cfg.logging = true) :
    cfg.framework = "echo" := by
  by_cases hfa : formAccepts cfg = true
  · by_contra hne
    have hv : (validateLogging cfg.framework cfg.logging).isNone = true := by
      simp only [formAccepts, Bool.and_eq_true] at hfa
      exact hfa.2
    rw [validateLogging, hl] at hv
    simp [hne] at hv
  · simp [program, hfa] at h

/-- Witness for C6 at scenario B (echo with logging). -/
theorem c6_witness :
    program envTrue cfgB fsEmpty ≠ ProgramResult.formFailed ∧
    cfgB.logging = true ∧ cfgB.framework = "echo" :=
  ⟨by
    intro hcon
    rw [show program envTrue cfgB fsEmpty =
          ProgramResult.ran (mainRun envTrue cfgB fsEmpty) from rfl] at hcon
    exact ProgramResult.noConfusion hcon,
   rfl,
   c6_logging_requires_echo envTrue cfgB fsEmpty
     (by
       intro hcon
       rw [show program envTrue cfgB fsEmpty =
             ProgramResult.ran (mainRun envTrue cfgB fsEmpty) from rfl] at hcon
       exact ProgramResult.noConfusion hcon)
     rfl⟩

/-- Claim C7.  For every configuration the form accepts, the module
initializer is invoked with module path
`"github.com/" + GithubUserID + "/" + ProjectName` and with working
directory the project root (`./<ProjectName>`). -/
theorem c7_module_path (cfg : ProjectConfig) (_h : formAccepts cfg = true) :
    Event.goModInit ("github.com/" ++ cfg.githubUserID ++ "/" ++ cfg.projectName)
      ("./" ++ cfg.projectName) ∈ (InitProject envTrue cfg fsEmpty).trace := by
  simp [InitProject, mkDirsLoop, initDirs, CreateFile, envTrue, fsEmpty]

/-- Witness for C7 at scenario A: module path `github.com/alice/demo1`. -/
theorem c7_witness :
    formAccepts cfgA = true ∧
    "github.com/" ++ cfgA.githubUserID ++ "/" ++ cfgA.projectName =
      ("github.com/alice/demo1") ∧
    Event.goModInit ("github.com/" ++ cfgA.githubUserID ++ "/" ++ cfgA.projectName)
      ("./" ++ cfgA.projectName) ∈ (InitProject envTrue cfgA fsEmpty).trace :=
  ⟨by decide, by decide, c7_module_path cfgA (by decide)⟩

/-- Claim C5.  The database adapter file at
`<project>/internal/adapters/repository/db.go` is written exactly when the
database is sqlite, postgresql or mongodb, with the matching template; for
any other value (mysql and none included) no adapter file exists after the
run and the run still completes without a fatal outcome. -/
theorem c5_database_dispatch (cfg : ProjectConfig) :
    (cfg.database = "sqlite" →
      (mainRun envTrue cfg fsEmpty).fs.files
        (cfg.projectName ++ "/internal/adapters/repository/db.go") =
        some (.text .sqliteTemplate)) ∧
    (cfg.database = "postgresql" →
      (mainRun envTrue cfg fsEmpty).fs.files
        (cfg.projectName ++ "/internal/adapters/repository/db.go") =
        some (.text .pgSqlTemplate)) ∧
    (cfg.database = "mongodb" →
      (mainRun envTrue cfg fsEmpty).fs.files
        (cfg.projectName ++ "/internal/adapters/repository/db.go") =
        some (.text .mongoDBTemplate)) ∧
    (cfg.database ∉ [("sqlite"), ("postgresql"), ("mongodb")] →
      (mainRun envTrue cfg fsEmpty).fs.files
        (cfg.projectName ++ "/internal/adapters/repository/db.go") = none ∧
      (mainRun envTrue cfg fsEmpty).outcome = .ok) := by
  refine ⟨?_, ?_, ?_, ?_⟩
  · intro h
    simp only [mainRun, databaseStep, h]
    simp [CreateFile_files_self]
  · intro h
    simp only [mainRun, databaseStep, h]
    simp [CreateFile_files_self]
  · intro h
    simp only [mainRun, databaseStep, h]
    simp [CreateFile_files_self]
  · intro h
    obtain ⟨h1, h2, h3⟩ :
        cfg.database ≠ "sqlite" ∧ cfg.database ≠ "postgresql" ∧
          cfg.database ≠ "mongodb" := by
      simpa using h
    constructor
    · have e2 : (mainRun envTrue cfg fsEmpty).fs.files
          (cfg.projectName ++ "/internal/adapters/repository/db.go") =
          ((frameworkStep envTrue cfg (InitProject envTrue cfg fsEmpty).fs).fs).files
            (cfg.projectName ++ "/internal/adapters/repository/db.go") := by
        show (databaseStep envTrue cfg _).fs.files _ = _
        simp only [databaseStep]
        rw [if_neg h1, if_neg h2, if_neg h3]
      rw [e2,
        frameworkStep_files_other envTrue cfg (InitProject envTrue cfg fsEmpty).fs _
          (by simp) (by simp),
        InitProject_files_other envTrue cfg fsEmpty _ (by simp)]
      rfl
    · simp [mainRun, envTrue]

/-- Witness for C5 at scenario A (sqlite) and at a mysql configuration. -/
theorem c5_witness :
    (cfgA.database = "sqlite" ∧
      (mainRun envTrue cfgA fsEmpty).fs.files
        (cfgA.projectName ++ "/internal/adapters/repository/db.go") =
        some (.text .sqliteTemplate)) ∧
    ((⟨"alice", "demo3", "gin", "mysql", false⟩ : ProjectConfig).database ∉
        [("sqlite"), ("postgresql"), ("mongodb")] ∧
      (mainRun envTrue (⟨"alice", "demo3", "gin", "mysql", false⟩ : ProjectConfig)
        fsEmpty).fs.files ("demo3/internal/adapters/repository/db.go") = none) :=
  ⟨⟨rfl, (c5_database_dispatch cfgA).1 rfl⟩,
   ⟨by decide,
    ((c5_database_dispatch (⟨"alice", "demo3", "gin", "mysql", false⟩ : ProjectConfig)).2.2.2
      (by decide)).1⟩⟩

/-- Claim C4.  The framework entry-point file lands at
`<project>/cmd/main.go` with the template selected by the framework value,
for each of the five framework variants; for echo with logging, the logger
helper is written at `<project>/pkg/utils/logger.go` and its write event
precedes the entry-point write in the trace, and the logger-aware entry-point
variant is used; for echo without logging, the plain echo variant is used and
no logger file exists. -/
theorem c4_framework_dispatch (cfg : ProjectConfig) :
    (cfg.framework = "stdlib" →
      (mainRun envTrue cfg fsEmpty).fs.files (cfg.projectName ++ "/cmd/main.go") =
        some (.text .stdLibTemplate)) ∧
    (cfg.framework = "gin" →
      (mainRun envTrue cfg fsEmpty).fs.files (cfg.projectName ++ "/cmd/main.go") =
        some (.text .ginTemplate)) ∧
    (cfg.framework = "chi" →
      (mainRun envTrue cfg fsEmpty).fs.files (cfg.projectName ++ "/cmd/main.go") =
        some (.text .chiTemplate)) ∧
    (cfg.framework = "fiber" →
      (mainRun envTrue cfg fsEmpty).fs.files (cfg.projectName ++ "/cmd/main.go") =
        some (.text .fiberTempalte)) ∧
    (cfg.framework = "echo" → cfg.logging = false →
      (mainRun envTrue cfg fsEmpty).fs.files (cfg.projectName ++ "/cmd/main.go") =
        some (.text .echoTemplate) ∧
      (mainRun envTrue cfg fsEmpty).fs.files (cfg.projectName ++ "/pkg/utils/logger.go") =
        none) ∧
    (cfg.framework = "echo" → cfg.logging = true →
      (mainRun envTrue cfg fsEmpty).fs.files (cfg.projectName ++ "/cmd/main.go") =
        some (.text .echoTemplateWithLogger) ∧
      (mainRun envTrue cfg fsEmpty).fs.files (cfg.projectName ++ "/pkg/utils/logger.go") =
        some (.text .loggerTemplate) ∧
      ∃ t1 t2 t3, (mainRun envTrue cfg fsEmpty).trace =
        t1 ++ Event.writeE (cfg.projectName ++ "/pkg/utils/logger.go") .loggerTemplate ::
          (t2 ++ Event.writeE (cfg.projectName ++ "/cmd/main.go") .echoTemplateWithLogger ::
            t3)) := by
  have hdb : ∀ q, q ≠ cfg.projectName ++ "/internal/adapters/repository/db.go" →
      (mainRun envTrue cfg fsEmpty).fs.files q =
        (frameworkStep envTrue cfg (InitProject envTrue cfg fsEmpty).fs).fs.files q := by
    intro q hq
    show (databaseStep envTrue cfg _).fs.files _ = _
    exact databaseStep_files_other envTrue cfg _ q hq
  refine ⟨?_, ?_, ?_, ?_, ?_, ?_⟩
  · intro h
    rw [hdb _ (by simp)]
    simp only [frameworkStep, h]
    simp [CreateFile_files_self]
  · intro h
    rw [hdb _ (by simp)]
    simp only [frameworkStep, h]
    simp [CreateFile_files_self]
  · intro h
    rw [hdb _ (by simp)]
    simp only [frameworkStep, h]
    simp [CreateFile_files_self]
  · intro h
    rw [hdb _ (by simp)]
    simp only [frameworkStep, h]
    simp [CreateFile_files_self]
  · intro h hl
    constructor
    · rw [hdb _ (by simp)]
      simp only [frameworkStep, h, hl]
      simp [CreateFile_files_self]
    · rw [hdb _ (by simp)]
      simp only [frameworkStep, h, hl]
      simp only [String.reduceEq, Bool.false_eq_true, reduceIte]
      rw [CreateFile_files_other _ _ _ _ _ (by simp),
        InitProject_files_other envTrue cfg fsEmpty _ (by simp)]
      rfl
  · intro h hl
    refine ⟨?_, ?_, ?_⟩
    · rw [hdb _ (by simp)]
      simp only [frameworkStep, h, hl, addEchoLogger]
      simp [CreateFile_files_self]
    · rw [hdb _ (by simp)]
      simp only [frameworkStep, h, hl, addEchoLogger]
      simp only [String.reduceEq, reduceIte]
      rw [CreateFile_files_other _ _ _ _ _ (by simp)]
      simp [CreateFile_files_self]
    · refine ⟨(InitProject envTrue cfg fsEmpty).trace ++
        [.mkdirAllE (dirOf (cfg.projectName ++ "/pkg/utils/logger.go")),
         .createE (cfg.projectName ++ "/pkg/utils/logger.go")],
        [.mkdirAllE (dirOf (cfg.projectName ++ "/cmd/main.go")),
         .createE (cfg.projectName ++ "/cmd/main.go")],
        (databaseStep envTrue cfg
          (frameworkStep envTrue cfg (InitProject envTrue cfg fsEmpty).fs).fs).trace ++
          [.goModTidy ("./" ++ cfg.projectName)], ?_⟩
      simp only [mainRun, frameworkStep, addEchoLogger, h, hl]
      simp [CreateFile_trace_envTrue]

/-- Witness for C4 at scenario B (echo with logging). -/
theorem c4_witness :
    cfgB.framework = "echo" ∧ cfgB.logging = true ∧
    (mainRun envTrue cfgB fsEmpty).fs.files (cfgB.projectName ++ "/cmd/main.go") =
      some (.text .echoTemplateWithLogger) ∧
    (mainRun envTrue cfgB fsEmpty).fs.files (cfgB.projectName ++ "/pkg/utils/logger.go") =
      some (.text .loggerTemplate) :=
  ⟨rfl, rfl,
   ((c4_framework_dispatch cfgB).2.2.2.2.2 rfl rfl).1,
   ((c4_framework_dispatch cfgB).2.2.2.2.2 rfl rfl).2.1⟩

/-- An environment in which exactly the recursive creation of the directory
`bad` fails and every other operation succeeds. -/
def envFailDir (bad : String) : Env :=
  fun e => if e = Event.mkdirPCmd bad then false else true

/-- Claim C8.  On a successful run the `mkdir -p` invocations of
`InitProject` are exactly the eight fixed skeleton subdirectories under the
project root (and `InitProject` reports no error); and when the creation of
any single one of them fails, `InitProject` returns the error naming that
directory and aborts: no module init, no VCS init, and no file write is
attempted. -/
theorem c8_skeleton_dirs (cfg : ProjectConfig) (bad : String)
    (hbad : bad ∈ initDirs cfg.projectName) :
    (∀ d, Event.mkdirPCmd d ∈ (InitProject envTrue cfg fsEmpty).trace ↔
      d ∈ [cfg.projectName ++ "/internal/adapters",
           cfg.projectName ++ "/internal/adapters/handlers",
           cfg.projectName ++ "/internal/adapters/repository",
           cfg.projectName ++ "/internal/config",
           cfg.projectName ++ "/internal/core",
           cfg.projectName ++ "/internal/core/domain",
           cfg.projectName ++ "/internal/core/ports",
           cfg.projectName ++ "/internal/core/services"]) ∧
    (InitProject envTrue cfg fsEmpty).err = none ∧
    (InitProject (envFailDir bad) cfg fsEmpty).err = some (.mkdirDirFailed bad) ∧
    (∀ m w, Event.goModInit m w ∉ (InitProject (envFailDir bad) cfg fsEmpty).trace) ∧
    (∀ w, Event.gitInit w ∉ (InitProject (envFailDir bad) cfg fsEmpty).trace) ∧
    (∀ p c, Event.writeE p c ∉ (InitProject (envFailDir bad) cfg fsEmpty).trace) := by
  simp only [initDirs, List.mem_cons, List.not_mem_nil, or_false] at hbad
  refine ⟨?_, ?_, ?_, ?_, ?_, ?_⟩
  · intro d
    simp [InitProject, mkDirsLoop, initDirs, CreateFile, envTrue, fsEmpty]
    tauto
  · rfl
  · obtain h|h|h|h|h|h|h|h := hbad <;> subst h <;>
      simp [InitProject, mkDirsLoop, initDirs, envFailDir, fsEmpty]
  · intro m w
    obtain h|h|h|h|h|h|h|h := hbad <;> subst h <;>
      simp [InitProject, mkDirsLoop, initDirs, envFailDir, fsEmpty]
  · intro w
    obtain h|h|h|h|h|h|h|h := hbad <;> subst h <;>
      simp [InitProject, mkDirsLoop, initDirs, envFailDir, fsEmpty]
  · intro p c
    obtain h|h|h|h|h|h|h|h := hbad <;> subst h <;>
      simp [InitProject, mkDirsLoop, initDirs, envFailDir, fsEmpty]

/-- Witness for C8: a failed creation of `demo1/internal/config` yields the
error naming that path. -/
theorem c8_witness :
    ("demo1/internal/config") ∈ initDirs ("demo1") ∧
    (InitProject (envFailDir ("demo1/internal/config")) cfgA fsEmpty).err =
      some (.mkdirDirFailed ("demo1/internal/config")) :=
  ⟨by decide,
   (c8_skeleton_dirs cfgA ("demo1/internal/config") (by decide)).2.2.1⟩

end Shatkon
